import Mathlib

/-!
Verification of the earthquake-dashboard repository.

`src/earthquake_dashboard.py` defines three pure classifier functions:
`get_seismic_risk_score`, `get_educational_tip`, `calculate_impact_level`.
Numeric inputs (latitude, longitude, magnitude, depth) are modelled as
rationals, which faithfully represent every concrete value the program
compares against its integer thresholds.

`src/load_data.py` is a script that pages through a volcano API:
starting at page 1 it requests each page, stops on a non-200 status,
appends the page's `items` (default `[]`) to `all_volcanoes`, and stops
once `page >= totalPages` (default 1); afterwards it unconditionally
dumps `all_volcanoes` to a file.  The loop is modelled as a fuel-indexed
recursion over an environment mapping page numbers to responses.
-/

/-- Embeds `get_seismic_risk_score(lat, lon)` from
`src/earthquake_dashboard.py`: `'High Risk'` if latitude > 50,
`'Moderate Risk'` if latitude < -50, `'Low Risk'` otherwise.
The `lon` parameter is accepted but unused, as in the source. -/
def get_seismic_risk_score (lat _lon : ℚ) : String :=
  if lat > 50 then "High Risk"
  else if lat < -50 then "Moderate Risk"
  else "Low Risk"

/-- Embeds `get_educational_tip(magnitude)` from
`src/earthquake_dashboard.py`. -/
def get_educational_tip (magnitude : ℚ) : String :=
  if magnitude ≥ 7 then "Drop, Cover, and Hold On"
  else if magnitude ≥ 5 then "Be Prepared"
  else "Stay Alert"

/-- Embeds `calculate_impact_level(magnitude, depth)` from
`src/earthquake_dashboard.py`. -/
def calculate_impact_level (magnitude depth : ℚ) : String :=
  if magnitude ≥ 7 then "Severe"
  else if magnitude ≥ 5 ∧ depth < 70 then "Moderate"
  else "Minor"

/-- C1: `calculate_impact_level` returns `"Severe"` iff magnitude ≥ 7;
returns `"Moderate"` when 5 ≤ magnitude < 7 and depth < 70; and returns
`"Minor"` otherwise — in particular for every 5 ≤ magnitude < 7 with
depth ≥ 70 (including depth = 70) the result is `"Minor"`. -/
theorem impact_level_rule (m d : ℚ) :
    (m ≥ 7 → calculate_impact_level m d = "Severe") ∧
    (5 ≤ m → m < 7 → d < 70 → calculate_impact_level m d = "Moderate") ∧
    (5 ≤ m → m < 7 → 70 ≤ d → calculate_impact_level m d = "Minor") ∧
    (m < 5 → calculate_impact_level m d = "Minor") := by
  unfold calculate_impact_level
  refine ⟨fun h7 => ?_, fun h5 h7 hd => ?_, fun h5 h7 hd => ?_, fun h5 => ?_⟩ <;>
    split_ifs <;> first | rfl | (exfalso; simp_all; try linarith)

/-- C1 witness: the spec's boundary example `impactLevelFor(5.5, 70) = "Minor"`. -/
theorem impact_level_rule_witness :
    calculate_impact_level (11/2) 70 = "Minor" :=
  (impact_level_rule (11/2) 70).2.2.1 (by norm_num) (by norm_num) (by norm_num)

/-- C2: `get_seismic_risk_score` returns `"High Risk"` when latitude > 50,
`"Moderate Risk"` when latitude < -50, and `"Low Risk"` for every
-50 ≤ latitude ≤ 50; both boundaries fall into `"Low Risk"` since the
comparisons are strict. -/
theorem risk_score_rule (lat lon : ℚ) :
    (lat > 50 → get_seismic_risk_score lat lon = "High Risk") ∧
    (lat < -50 → get_seismic_risk_score lat lon = "Moderate Risk") ∧
    (-50 ≤ lat → lat ≤ 50 → get_seismic_risk_score lat lon = "Low Risk") := by
  unfold get_seismic_risk_score
  refine ⟨fun h => ?_, fun h => ?_, fun h1 h2 => ?_⟩ <;>
    split_ifs <;> first | rfl | (exfalso; linarith)

/-- C2 witness: the boundary latitude 50 (and -50) yields `"Low Risk"`. -/
theorem risk_score_rule_witness :
    get_seismic_risk_score 50 0 = "Low Risk" ∧
    get_seismic_risk_score (-50) 0 = "Low Risk" :=
  ⟨(risk_score_rule 50 0).2.2 (by norm_num) (by norm_num),
   (risk_score_rule (-50) 0).2.2 (by norm_num) (by norm_num)⟩

/-- C3: `get_educational_tip` returns `"Drop, Cover, and Hold On"` when
magnitude ≥ 7, `"Be Prepared"` when 5 ≤ magnitude < 7, and `"Stay Alert"`
when magnitude < 5; both thresholds are inclusive. -/
theorem educational_tip_rule (m : ℚ) :
    (m ≥ 7 → get_educational_tip m = "Drop, Cover, and Hold On") ∧
    (5 ≤ m → m < 7 → get_educational_tip m = "Be Prepared") ∧
    (m < 5 → get_educational_tip m = "Stay Alert") := by
  unfold get_educational_tip
  refine ⟨fun h => ?_, fun h1 h2 => ?_, fun h => ?_⟩ <;>
    split_ifs <;> first | rfl | (exfalso; linarith)

/-- C3 witness: at the inclusive thresholds 7 and 5. -/
theorem educational_tip_rule_witness :
    get_educational_tip 7 = "Drop, Cover, and Hold On" ∧
    get_educational_tip 5 = "Be Prepared" :=
  ⟨(educational_tip_rule 7).1 (by norm_num),
   (educational_tip_rule 5).2.1 (by norm_num) (by norm_num)⟩

/-- C7: each classifier is a total function whose result lies in its closed
set of three string constants; as pure Lean functions they are
deterministic and depend only on their declared inputs. -/
theorem classifiers_total_closed (lat lon m d : ℚ) :
    (get_seismic_risk_score lat lon = "High Risk" ∨
     get_seismic_risk_score lat lon = "Moderate Risk" ∨
     get_seismic_risk_score lat lon = "Low Risk") ∧
    (get_educational_tip m = "Drop, Cover, and Hold On" ∨
     get_educational_tip m = "Be Prepared" ∨
     get_educational_tip m = "Stay Alert") ∧
    (calculate_impact_level m d = "Severe" ∨
     calculate_impact_level m d = "Moderate" ∨
     calculate_impact_level m d = "Minor") := by
  unfold get_seismic_risk_score get_educational_tip calculate_impact_level
  refine ⟨?_, ?_, ?_⟩ <;> split_ifs <;> simp

/-- C8: the longitude argument of `get_seismic_risk_score` has no influence
on the result. -/
theorem risk_score_ignores_longitude (lat lon1 lon2 : ℚ) :
    get_seismic_risk_score lat lon1 = get_seismic_risk_score lat lon2 := rfl

/-- C9: the two magnitude-driven classifiers agree at their shared
thresholds: the impact level is `"Severe"` iff the tip is
`"Drop, Cover, and Hold On"`, and a `"Moderate"` impact implies the tip
`"Be Prepared"`. -/
theorem impact_tip_agreement (m d : ℚ) :
    (calculate_impact_level m d = "Severe" ↔
      get_educational_tip m = "Drop, Cover, and Hold On") ∧
    (calculate_impact_level m d = "Moderate" →
      get_educational_tip m = "Be Prepared") := by
  unfold calculate_impact_level get_educational_tip
  constructor
  · split_ifs <;> simp_all
  · split_ifs <;> simp_all

/-- C9 witness: at magnitude 6, depth 10 the impact is `"Moderate"` and the
tip is `"Be Prepared"`. -/
theorem impact_tip_agreement_witness :
    get_educational_tip 6 = "Be Prepared" :=
  (impact_tip_agreement 6 10).2 (by norm_num [calculate_impact_level])

/-- A response from the volcano API as consumed by `src/load_data.py`:
`status_code`, and a JSON body from which the script reads the optional
fields `items` (default `[]`) and `totalPages` (default `1`). -/
structure Response (α : Type) where
  status_code : Nat
  items : Option (List α)
  totalPages : Option Nat

/-- The `items` field the script extracts: `data.get("items", [])`. -/
def itemsOf {α : Type} (env : Nat → Response α) (p : Nat) : List α :=
  ((env p).items).getD []

/-- Embeds the `while True` pagination loop of `src/load_data.py`,
fuel-indexed to make the recursion structural.  `env` maps a page number
to the response for `requests.get(BASE_URL, params=...page...)`.  Returns
the final `all_volcanoes` accumulator together with the list of page
numbers actually requested.  A loop iteration requests `page`; on a
non-200 status it breaks; otherwise it extends the accumulator with
`data.get("items", [])` and breaks when `page >= data.get("totalPages", 1)`,
else continues at `page + 1`.  Fuel 0 models an exhausted budget and
issues no request. -/
def fetchLoop {α : Type} (env : Nat → Response α) :
    Nat → Nat → List α → List α × List Nat
  | 0, _, acc => (acc, [])
  | fuel + 1, page, acc =>
    if (env page).status_code ≠ 200 then (acc, [page])
    else
      let acc2 := acc ++ ((env page).items).getD []
      if ((env page).totalPages).getD 1 ≤ page then (acc2, [page])
      else
        let rest := fetchLoop env fuel (page + 1) acc2
        (rest.1, page :: rest.2)

/-- The document the script writes with `json.dump(all_volcanoes, f)` after
the loop: the write is unconditional, so it is a total function of the run. -/
def savedDocument {α : Type} (env : Nat → Response α) (fuel : Nat) : List α :=
  (fetchLoop env fuel 1 []).1

/-- The count the script reports: `len(all_volcanoes)`. -/
def savedCount {α : Type} (env : Nat → Response α) (fuel : Nat) : Nat :=
  (savedDocument env fuel).length

/-- The concatenation of `items p ++ items (p+1) ++ ... ` over `n`
consecutive pages starting at `p`. -/
def concatFrom {α : Type} (items : Nat → List α) : Nat → Nat → List α
  | _, 0 => []
  | p, n + 1 => items p ++ concatFrom items (p + 1) n

/-- The list of `n` consecutive page numbers starting at `p`. -/
def pageRange : Nat → Nat → List Nat
  | _, 0 => []
  | p, n + 1 => p :: pageRange (p + 1) n

theorem fetchLoop_ok_invariant {α : Type} (env : Nat → Response α) (T : Nat)
    (hok : ∀ p, 1 ≤ p → p ≤ T →
      (env p).status_code = 200 ∧ (env p).totalPages = some T) :
    ∀ (fuel p : Nat) (acc : List α), 1 ≤ p → p ≤ T → T + 1 - p ≤ fuel →
      fetchLoop env fuel p acc =
        (acc ++ concatFrom (itemsOf env) p (T + 1 - p), pageRange p (T + 1 - p)) := by
  intro fuel
  induction fuel with
  | zero => intro p acc h1 h2 h3; omega
  | succ f ih =>
    intro p acc h1 h2 h3
    obtain ⟨hs, ht⟩ := hok p h1 h2
    by_cases hpT : T ≤ p
    · have hpeq : p = T := le_antisymm h2 hpT
      have hn : T + 1 - p = 1 := by omega
      simp only [fetchLoop, hs, ht, hn, ne_eq, not_true_eq_false, if_false,
        Option.getD_some, if_pos hpT, concatFrom, pageRange, itemsOf,
        List.append_nil]
    · have hrec := ih (p + 1) (acc ++ ((env p).items).getD [])
        (by omega) (by omega) (by omega)
      have hn : T + 1 - p = (T + 1 - (p + 1)) + 1 := by omega
      simp only [fetchLoop, hs, ht, ne_eq, not_true_eq_false, if_false,
        Option.getD_some, if_neg (by omega : ¬ T ≤ p), hrec, hn,
        concatFrom, pageRange, itemsOf, List.append_assoc]

/-- C4: when every page succeeds and reports the same `totalPages = T ≥ 1`
(and the fuel budget covers T iterations), the loop requests exactly the
consecutive pages 1..T and accumulates the concatenation of their `items`
in page order. -/
theorem fetch_all_pages {α : Type} (env : Nat → Response α) (T fuel : Nat)
    (hT : 1 ≤ T) (hfuel : T ≤ fuel)
    (hok : ∀ p, 1 ≤ p → p ≤ T →
      (env p).status_code = 200 ∧ (env p).totalPages = some T) :
    fetchLoop env fuel 1 [] = (concatFrom (itemsOf env) 1 T, pageRange 1 T) := by
  have h := fetchLoop_ok_invariant env T hok fuel 1 [] le_rfl hT (by omega)
  have hn : T + 1 - 1 = T := by omega
  rw [hn] at h
  simpa using h

/-- A three-page mock endpoint with 2 items per page, as in the spec's
fetcher scenario. -/
def envThreePages : Nat → Response Nat :=
  fun p => ⟨200, some [2 * p, 2 * p + 1], some 3⟩

/-- C4 witness: with `totalPages = 3` and 2 items per page, exactly 3
requests (pages 1, 2, 3) and 6 accumulated items. -/
theorem fetch_all_pages_witness :
    fetchLoop envThreePages 3 1 [] = ([2, 3, 4, 5, 6, 7], [1, 2, 3]) ∧
    (fetchLoop envThreePages 3 1 []).1.length = 6 := by
  have h := fetch_all_pages envThreePages 3 3 (by omega) (by omega)
    (fun p _ _ => ⟨rfl, rfl⟩)
  exact ⟨h.trans (by rfl), by rw [h]; rfl⟩

theorem fetchLoop_fail_invariant {α : Type} (env : Nat → Response α) (T k : Nat)
    (hok : ∀ p, 1 ≤ p → p < k →
      (env p).status_code = 200 ∧ (env p).totalPages = some T)
    (hkT : k ≤ T) (hfail : (env k).status_code ≠ 200) :
    ∀ (fuel p : Nat) (acc : List α), 1 ≤ p → p ≤ k → k + 1 - p ≤ fuel →
      fetchLoop env fuel p acc =
        (acc ++ concatFrom (itemsOf env) p (k - p), pageRange p (k + 1 - p)) := by
  intro fuel
  induction fuel with
  | zero => intro p acc h1 h2 h3; omega
  | succ f ih =>
    intro p acc h1 h2 h3
    by_cases hpk : p = k
    · subst hpk
      have hn0 : p - p = 0 := by omega
      have hn1 : p + 1 - p = 1 := by omega
      simp only [fetchLoop, if_pos hfail, hn0, hn1, concatFrom, pageRange,
        List.append_nil]
    · obtain ⟨hs, ht⟩ := hok p h1 (by omega)
      have hrec := ih (p + 1) (acc ++ ((env p).items).getD [])
        (by omega) (by omega) (by omega)
      have hn : k - p = (k - (p + 1)) + 1 := by omega
      have hn2 : k + 1 - p = (k + 1 - (p + 1)) + 1 := by omega
      simp only [fetchLoop, hs, ht, ne_eq, not_true_eq_false, if_false,
        Option.getD_some, if_neg (by omega : ¬ T ≤ p), hrec, hn, hn2,
        concatFrom, pageRange, itemsOf, List.append_assoc]

/-- C5: if pages before `k` succeed (reporting `totalPages = T ≥ k`) and the
request for page `k` returns a non-200 status, the loop stops at page `k`:
it requested exactly pages 1..k, and the saved output is exactly the
concatenation of the items of pages 1..k-1 — the partial result is kept,
not discarded. -/
theorem fetch_stops_on_failure {α : Type} (env : Nat → Response α)
    (T k fuel : Nat) (hk : 1 ≤ k) (hkT : k ≤ T) (hfuel : k ≤ fuel)
    (hok : ∀ p, 1 ≤ p → p < k →
      (env p).status_code = 200 ∧ (env p).totalPages = some T)
    (hfail : (env k).status_code ≠ 200) :
    fetchLoop env fuel 1 [] = (concatFrom (itemsOf env) 1 (k - 1), pageRange 1 k) ∧
    savedDocument env fuel = concatFrom (itemsOf env) 1 (k - 1) := by
  have h := fetchLoop_fail_invariant env T k hok hkT hfail fuel 1 []
    le_rfl hk (by omega)
  have hn : k + 1 - 1 = k := by omega
  rw [hn] at h
  simp only [List.nil_append] at h
  exact ⟨h, congrArg Prod.fst h⟩

/-- A mock endpoint whose page 2 fails (page 1 succeeds with
`totalPages = 3`). -/
def envFailPageTwo : Nat → Response Nat :=
  fun p => if p = 2 then ⟨500, some [99], some 3⟩ else ⟨200, some [10 * p], some 3⟩

/-- C5 witness: failure at page 2 of 3 saves only page 1's items after
requests to pages 1 and 2. -/
theorem fetch_stops_on_failure_witness :
    fetchLoop envFailPageTwo 3 1 [] = ([10], [1, 2]) ∧
    savedDocument envFailPageTwo 3 = [10] := by
  have h := fetch_stops_on_failure envFailPageTwo 3 2 3 (by omega) (by omega)
    (by omega)
    (by intro p h1 h2
        have hp : p = 1 := by omega
        subst hp
        exact ⟨rfl, rfl⟩)
    (by decide)
  exact ⟨h.1.trans (by rfl), h.2.trans (by rfl)⟩

/-- C6: if the successful page-1 response lacks a `totalPages` field, the
default 1 applies, so the loop accumulates page 1's items and stops after
that single request. -/
theorem fetch_single_page_default {α : Type} (env : Nat → Response α)
    (fuel : Nat) (hfuel : 1 ≤ fuel)
    (hs : (env 1).status_code = 200) (ht : (env 1).totalPages = none) :
    fetchLoop env fuel 1 [] = (((env 1).items).getD [], [1]) := by
  obtain ⟨f, rfl⟩ : ∃ f, fuel = f + 1 := ⟨fuel - 1, by omega⟩
  simp only [fetchLoop, hs, ht, ne_eq, not_true_eq_false, if_false,
    Option.getD_none, if_pos (by omega : 1 ≤ 1), List.nil_append]

/-- A mock endpoint that answers 200 with two items and no `totalPages`. -/
def envNoTotalPages : Nat → Response Nat :=
  fun _ => ⟨200, some [7, 8], none⟩

/-- C6 witness: one request, page 1's two items accumulated. -/
theorem fetch_single_page_default_witness :
    fetchLoop envNoTotalPages 5 1 [] = ([7, 8], [1]) :=
  (fetch_single_page_default envNoTotalPages 5 (by omega) rfl rfl).trans (by rfl)

/-- C10: the output document is written unconditionally after the loop; if
the very first request fails, the saved document is the empty collection,
the reported count is 0, and exactly one request (page 1) was issued. -/
theorem fetch_first_page_failure {α : Type} (env : Nat → Response α)
    (fuel : Nat) (hfuel : 1 ≤ fuel) (hfail : (env 1).status_code ≠ 200) :
    savedDocument env fuel = [] ∧ savedCount env fuel = 0 ∧
    (fetchLoop env fuel 1 []).2 = [1] := by
  obtain ⟨f, rfl⟩ : ∃ f, fuel = f + 1 := ⟨fuel - 1, by omega⟩
  unfold savedCount savedDocument
  simp only [fetchLoop, if_pos hfail, List.length_nil, and_self]

/-- A mock endpoint that always answers 404. -/
def envAllFail : Nat → Response Nat :=
  fun _ => ⟨404, none, none⟩

/-- C10 witness: first request fails, empty document, count 0, one request. -/
theorem fetch_first_page_failure_witness :
    savedDocument envAllFail 4 = ([] : List Nat) ∧ savedCount envAllFail 4 = 0 ∧
    (fetchLoop envAllFail 4 1 []).2 = [1] :=
  fetch_first_page_failure envAllFail 4 (by omega) (by decide)
